import Mathlib

/-!
Shallow embedding of `luigi/scalding.py` (the Scalding job runner for Luigi):
the path helpers, the entry-point discovery scan (`get_job_class`), the build
pipeline (`build_job_jar`) and the execution pipeline (`run_job`), together
with theorems settling the specification claims about them.

Python values are modelled as follows: strings become `String`, `None` becomes
`Option.none` (so a Python variable that may be `None` has type `Option String`),
machine-independent integers (mtimes) become `Int`, raised exceptions become the
`Except` error channel with an explicit error type `PyErr`.  The filesystem,
the invoking user, subprocess outcomes and the cluster are an explicit
environment record `Env`; subprocess invocations and output relocations are
recorded in a `Trace` so that claims about "zero subprocess invocations" or
"relocations in recorded order" are statements about data.
-/

/-- Exceptions the embedded code can raise.  `attributeError` models the
`AttributeError` raised by `os.path.abspath(None)` under Python 2 (the module
uses `iteritems`, so it is Python 2 code); `oserror` models `os.path.getmtime`
on a missing file; `calledProcessError` models `subprocess.check_call` on a
non-zero exit; `jobSourceDoesNotExist` models `Exception("job source does not
exist")`; `unboundLocal` models the `UnboundLocalError` from reading the unset
local `job_class`; `clusterError` models a failure raised by
`hadoop.run_and_track_hadoop_job`. -/
inductive PyErr where
  | attributeError
  | oserror
  | calledProcessError
  | jobSourceDoesNotExist
  | unboundLocal
  | clusterError
deriving DecidableEq, Repr

/-- Index of the last occurrence of a character in a character list
(Python `str.rfind`, as an `Option`). -/
def lastIdxOf : List Char → Char → Option Nat
  | [], _ => none
  | a :: rest, c =>
    match lastIdxOf rest c with
    | some i => some (i + 1)
    | none => if a = c then some (0 : Nat) else none

/-- Embedding of Python `str.startswith` (structurally recursive, so that
concrete inputs evaluate inside the kernel). -/
def py_startswith (s pre : String) : Bool := pre.data.isPrefixOf s.data

/-- Embedding of Python `str.endswith`. -/
def py_endswith (s suf : String) : Bool := suf.data.reverse.isPrefixOf s.data.reverse

/-- Embedding of `posixpath.join` for two components: if the second is
absolute it wins; otherwise the components are joined with a slash unless the
first already ends in one or is empty. -/
def os_path_join (a b : String) : String :=
  if py_startswith b "/" then b
  else if a = "" then b
  else if py_endswith a "/" then a ++ b
  else a ++ "/" ++ b

/-- Embedding of `os.path.basename`: everything after the last slash. -/
def os_path_basename (p : String) : String :=
  match lastIdxOf p.data '/' with
  | none => p
  | some i => String.mk (p.data.drop (i + 1))

/-- Embedding of `os.path.splitext(p)[0]`: drop the extension starting at the
last dot of the final path component, except that a final component consisting
of leading dots only (such as `.bashrc`) has no extension. -/
def splitext_root (p : String) : String :=
  let cs := p.data
  let fileIdx : Nat :=
    match lastIdxOf cs '/' with
    | some i => i + 1
    | none => 0
  match lastIdxOf cs '.' with
  | none => p
  | some dotIdx =>
    if dotIdx < fileIdx then p
    else if (List.range (dotIdx - fileIdx)).all (fun k => cs.getD (fileIdx + k) ' ' = '.') then p
    else String.mk (cs.take dotIdx)

/-- Python `\s` over ASCII (the module compiles its pattern without the
Unicode flag): space, tab, newline, vertical tab, form feed, carriage
return. -/
def isWs (c : Char) : Bool :=
  c == ' ' || c == '\t' || c == '\n' || c == '\x0b' || c == '\x0c' || c == '\r'

/-- Does `.*extends\s+.*Job` match the character list `t`?  Since `.` matches
any character of a single line (lines carry no interior newline), this holds
exactly when `extends` occurs at some position `p`, the character at `p + 7`
is whitespace, and `Job` occurs somewhere at or after `p + 8`. -/
def restMatches (t : List Char) : Bool :=
  (List.range (t.length + 1)).any (fun p =>
    ("extends".data.isPrefixOf (t.drop p)) &&
    (match t.drop (p + 7) with
     | [] => false
     | c :: rest2 =>
       isWs c &&
       (List.range (rest2.length + 1)).any (fun q => "Job".data.isPrefixOf (rest2.drop q))))

/-- Match of `class\s+([^\s\(]+).*extends\s+.*Job` anchored at position `i`
of a line, returning the captured group.  After the literal `class`, `\s+`
must swallow the whole whitespace run (the group cannot start with
whitespace); the group is the longest non-empty prefix of the run of
characters that are neither whitespace nor `(` such that the remainder of
the line still matches `.*extends\s+.*Job` (greedy capture with
backtracking). -/
def groupAt (s : List Char) (i : Nat) : Option (List Char) :=
  if ("class".data.isPrefixOf (s.drop i)) then
    match s.drop (i + 5) with
    | [] => none
    | c :: _ =>
      if isWs c then
        let afterWs := (s.drop (i + 5)).dropWhile isWs
        let run := afterWs.takeWhile (fun d => !(isWs d) && d != '(')
        if run.length = 0 then none
        else
          match (List.range run.length).reverse.find? (fun k => restMatches (afterWs.drop (k + 1))) with
          | some k => some (afterWs.take (k + 1))
          | none => none
      else none
  else none

/-- Embedding of `re.search(r"class\s+([^\s\(]+).*extends\s+.*Job", line)`:
the captured group of the leftmost match, if any. -/
def searchLine (s : List Char) : Option (List Char) :=
  (List.range (s.length + 1)).findSome? (fun i => groupAt s i)

/-- The scanning loop of `get_job_class`: walk the lines keeping the last
matched class name in the local `job_class`; return immediately on a match
equal to the expected job name; at the end of the file return the last match,
or raise `UnboundLocalError` if the local was never assigned. -/
def gjc_loop (job_name : String) : List String → Option String → Except PyErr String
  | [], last =>
    match last with
    | some c => Except.ok c
    | none => Except.error PyErr.unboundLocal
  | l :: ls, last =>
    match searchLine l.data with
    | some grp =>
      if String.mk grp = job_name then Except.ok (String.mk grp)
      else gjc_loop job_name ls (some (String.mk grp))
    | none => gjc_loop job_name ls last

/-- Embedding of `ScaldingJobRunner.get_job_class`: the expected name is
`os.path.splitext(os.path.basename(source))[0]`; the source lines are scanned
with the pattern `class\s+([^\s\(]+).*extends\s+.*Job`. -/
def get_job_class (source : String) (lines : List String) : Except PyErr String :=
  gjc_loop (splitext_root (os_path_basename source)) lines none

deriving instance DecidableEq for Except

/-- Module-level configuration of `scalding.py`, read from `client.cfg`:
the four library roots and `core.tmp-dir`.  The claims under verification all
run with the roots configured, so they are carried as plain strings. -/
structure Config where
  scala_home : String
  scalding_home : String
  scalding_provided : String
  scalding_libjars : String
  tmp_dir : String

/-- Explicit state of the world the module interacts with: the invoking user
(`getpass.getuser`), the filesystem (`os.path.exists`, `os.path.getmtime` —
`none` meaning the path has no mtime and `getmtime` would raise `OSError` —,
`os.listdir`, and the line contents of source files as `readlines` yields
them), whether a given `subprocess.check_call` argument list exits zero, and
whether `hadoop.run_and_track_hadoop_job` succeeds on a given argument list
(an argument list may contain Python `None`, hence `Option String`
entries). -/
structure Env where
  user : String
  pathExists : String → Bool
  mtime : String → Option Int
  listdir : String → List String
  fileLines : String → List String
  callOk : List String → Bool
  clusterOk : List (Option String) → Bool

/-- Embedding of `ScaldingJobRunner._get_jars`: every entry of the directory
listing ending in `.jar`, joined onto the directory, in listing order. -/
def get_jars_in (env : Env) (path : String) : List String :=
  ((env.listdir path).filter (fun j => py_endswith j ".jar")).map (fun j => os_path_join path j)

/-- Embedding of `ScaldingJobRunner.get_scala_jars`: always
`scala-library.jar`; `scala-reflect.jar` only when it exists on disk;
`scala-compiler.jar` only when the compiler is requested. -/
def get_scala_jars (env : Env) (cfg : Config) (include_compiler : Bool) : List String :=
  let lib_dir := os_path_join cfg.scala_home "lib"
  let jars := [os_path_join lib_dir "scala-library.jar"]
  let reflect := os_path_join lib_dir "scala-reflect.jar"
  let jars := if env.pathExists reflect then jars ++ [reflect] else jars
  if include_compiler then jars ++ [os_path_join lib_dir "scala-compiler.jar"] else jars

/-- Embedding of `ScaldingJobRunner.get_scalding_jars`: all jars under
`scalding-home/lib`. -/
def get_scalding_jars (env : Env) (cfg : Config) : List String :=
  get_jars_in env (os_path_join cfg.scalding_home "lib")

/-- Embedding of `ScaldingJobRunner.get_scalding_core`: the first entry of
`scalding-home/lib` whose name starts with `scalding-core-`, or Python `None`
when no entry matches. -/
def get_scalding_core (env : Env) (cfg : Config) : Option String :=
  let lib_dir := os_path_join cfg.scalding_home "lib"
  match (env.listdir lib_dir).find? (fun j => py_startswith j "scalding-core-") with
  | some j => some (os_path_join lib_dir j)
  | none => none

/-- Embedding of `ScaldingJobRunner.get_provided_jars`. -/
def get_provided_jars (env : Env) (cfg : Config) : List String :=
  get_jars_in env cfg.scalding_provided

/-- Embedding of `ScaldingJobRunner.get_libjars`. -/
def get_libjars (env : Env) (cfg : Config) : List String :=
  get_jars_in env cfg.scalding_libjars

/-- Embedding of `ScaldingJobRunner.get_job_name`:
`scalding-job-{user}-{basename(splitext(source)[0])}`. -/
def get_job_name (env : Env) (source : String) : String :=
  "scalding-job-" ++ env.user ++ "-" ++ os_path_basename (splitext_root source)

/-- Embedding of `ScaldingJobRunner.get_job_jar`: the canonical artifact path
`tmp_dir/<job name>.jar`. -/
def get_job_jar (env : Env) (cfg : Config) (source : String) : String :=
  os_path_join cfg.tmp_dir (get_job_name env source ++ ".jar")

/-- Embedding of `ScaldingJobRunner.get_build_dir`: `tmp_dir/<job name>`. -/
def get_build_dir (env : Env) (cfg : Config) (source : String) : String :=
  os_path_join cfg.tmp_dir (get_job_name env source)

/-- The caller-visible interface of `ScaldingJobTask` as `ScaldingJobRunner`
and the argument builder consume it: `source()` (may be `None`),
`extra_jars()`, `main()` (may be `None`; an empty string is a falsy
non-`None` value), `jobconfs()`, `atomic_output()`, `requires_hadoop()` (an
ordered mapping from Scalding argument name to the list of upstream output
paths), `output()` and `job_args()`. -/
structure Job where
  source : Option String
  extra_jars : List String
  mainM : Option String
  jobconfs : List String
  atomic_output : Bool
  requires_hadoop : List (String × List String)
  output : String
  job_args : List String

/-- Compile classpath of `build_job_jar`: scalding jars, provided jars,
libjars, then the job's extra jars, with falsy (empty) entries removed by
`filter(None, ...)`. -/
def compile_classpath (env : Env) (cfg : Config) (extra : List String) : List String :=
  (get_scalding_jars env cfg ++ get_provided_jars env cfg ++ get_libjars env cfg ++ extra).filter
    (fun s => s != "")

/-- Embedding of `ScaldingJobRunner.build_job_jar`.  Returns the result (the
artifact path, or the exception raised) together with the list of
`subprocess.check_call` argument lists actually invoked, in order.  A `None`
source raises before any filesystem check, because `get_job_jar` calls
`os.path.splitext(None)` inside `get_job_name`.  On a cache check, the code
reads the source mtime first, then the artifact mtime, and returns the
artifact unchanged only when the artifact is strictly newer.  Otherwise it
compiles into the scratch build directory and archives it into the canonical
artifact path; a non-zero exit of either subprocess raises
`CalledProcessError` (and the second subprocess is not reached when the first
fails). -/
def build_job_jar (env : Env) (cfg : Config) (job : Job) : Except PyErr String × List (List String) :=
  match job.source with
  | none => (Except.error PyErr.attributeError, [])
  | some job_src =>
    let job_jar := get_job_jar env cfg job_src
    let cache : Except PyErr Bool :=
      if env.pathExists job_jar then
        match env.mtime job_src with
        | none => Except.error PyErr.oserror
        | some src_mtime =>
          match env.mtime job_jar with
          | none => Except.error PyErr.oserror
          | some jar_mtime => Except.ok (src_mtime < jar_mtime)
      else Except.ok false
    match cache with
    | Except.error e => (Except.error e, [])
    | Except.ok true => (Except.ok job_jar, [])
    | Except.ok false =>
      let build_dir := get_build_dir env cfg job_src
      let classpath := String.intercalate ":" (compile_classpath env cfg job.extra_jars)
      let scala_cp := String.intercalate ":" (get_scala_jars env cfg true)
      let arglist1 := ["java", "-cp", scala_cp, "scala.tools.nsc.Main",
                       "-classpath", classpath, "-d", build_dir, job_src]
      if env.callOk arglist1 then
        let arglist2 := ["jar", "cf", job_jar, "-C", build_dir, "."]
        if env.callOk arglist2 then (Except.ok job_jar, [arglist1, arglist2])
        else (Except.error PyErr.calledProcessError, [arglist1, arglist2])
      else (Except.error PyErr.calledProcessError, [arglist1])

/-- Embedding of `ScaldingJobTask.args`: for each `(name, paths)` entry of
`requires_hadoop()`, the flag `--name` followed by the comma-joined upstream
output paths, then `--output` with the job's output location, then the extra
`job_args`. -/
def task_args (job : Job) : List String :=
  (job.requires_hadoop.flatMap (fun kv => ["--" ++ kv.1, String.intercalate "," kv.2])) ++
    ["--output", job.output] ++ job.job_args

/-- Temporary location used for an atomically written output. -/
def tmppath (p : String) : String := p ++ "-luigi-tmp"

/-- Modelled from the spec: `hadoop_jar.fix_paths` lives in the repository's
`hadoop_jar` module, which is not part of this source slice.  Per the spec,
when `atomic_output` is enabled it rewrites output-location arguments to
temporary locations and records the (temporary, final) pairs, returning the
pairs together with the rewritten argument list; when it is disabled it
records nothing and returns the job's arguments unchanged. -/
def fix_paths (job : Job) : List (String × String) × List String :=
  if job.atomic_output then
    let args := task_args job
    (args.filterMap (fun a => if a = job.output then some (tmppath a, a) else none),
     args.map (fun a => if a = job.output then tmppath a else a))
  else
    ([], task_args job)

/-- Embedding of `job.main() or self.get_job_class(job.source())`: the
explicit entry point is used only when it is truthy (non-`None` and
non-empty); otherwise the entry point discovered by scanning the source file
is used (and a discovery failure propagates). -/
def resolve_job_class (env : Env) (job : Job) (src : String) : Except PyErr String :=
  match job.mainM with
  | some m => if m = "" then get_job_class src (env.fileLines src) else Except.ok m
  | none => get_job_class src (env.fileLines src)

/-- Runtime jar list of `run_job` before filtering: the built artifact, then
the configured libjars, then the job's extra jars. -/
def runtime_jars (env : Env) (cfg : Config) (job_jar : String) (extra : List String) : List String :=
  [job_jar] ++ get_libjars env cfg ++ extra

/-- Observable effects of one `run_job` call: the `subprocess.check_call`
argument lists spawned by the build, the cluster submissions (argument list —
which may contain Python `None` entries — together with the
`HADOOP_CLASSPATH` value handed to the cluster), and the output relocations
`a.move(b)` actually performed, in order. -/
structure Trace where
  procs : List (List String)
  submits : List (List (Option String) × String)
  moves : List (String × String)
deriving DecidableEq, Repr

/-- Embedding of `ScaldingJobRunner.run_job`.  With a `None` source the
precondition branch is taken but the error log line itself evaluates
`os.path.abspath(None)`, which raises `AttributeError` before the intended
exception; with an empty or non-existing source path the
`Exception("job source does not exist")` is raised; in both cases nothing is
spawned.  Otherwise the artifact is built (build errors propagate), the
`-libjars` list and submission argument list are assembled, the entry point is
resolved (a discovery failure propagates before any submission), the job is
submitted to the cluster with `HADOOP_CLASSPATH` set, and on success — and
only on success — the recorded (temporary, final) pairs are relocated in
order. -/
def run_job (env : Env) (cfg : Config) (job : Job) : Except PyErr Unit × Trace :=
  match job.source with
  | none => (Except.error PyErr.attributeError, ⟨[], [], []⟩)
  | some src =>
    if src = "" then (Except.error PyErr.jobSourceDoesNotExist, ⟨[], [], []⟩)
    else if env.pathExists src then
      match build_job_jar env cfg job with
      | (Except.error e, calls) => (Except.error e, ⟨calls, [], []⟩)
      | (Except.ok job_jar, calls) =>
        let jars := runtime_jars env cfg job_jar job.extra_jars
        let libjars := String.intercalate "," (jars.filter (fun s => s != ""))
        let core := get_scalding_core env cfg
        let arglist1 : List (Option String) :=
          [some "hadoop", some "jar", core, some "-libjars", some libjars]
        let arglist2 :=
          if job.jobconfs = [] then arglist1
          else arglist1 ++ job.jobconfs.map (fun c => some ("-D" ++ c))
        match resolve_job_class env job src with
        | Except.error e => (Except.error e, ⟨calls, [], []⟩)
        | Except.ok job_class =>
          let fp := fix_paths job
          let arglist := arglist2 ++ [some job_class, some "--hdfs"] ++ fp.2.map some
          let jars2 := jars.map some ++ [core]
          let hcp := String.intercalate ":" ((jars2.filterMap id).filter (fun s => s != ""))
          if env.clusterOk arglist then
            (Except.ok (), ⟨calls, [(arglist, hcp)], fp.1⟩)
          else
            (Except.error PyErr.clusterError, ⟨calls, [(arglist, hcp)], []⟩)
    else (Except.error PyErr.jobSourceDoesNotExist, ⟨[], [], []⟩)

/-- Transcription of claim C6's wording of the compile classpath, for
comparison against the code: dependency-framework (scalding) archives, then
provided archives, then the caller's extra dependency archives, filtered of
empty entries, colon-joined.  (The code additionally inserts the configured
`scalding-libjars` archives before the caller's extras.) -/
def claimed_compile_classpath (env : Env) (cfg : Config) (extra : List String) : String :=
  String.intercalate ":"
    ((get_scalding_jars env cfg ++ get_provided_jars env cfg ++ extra).filter (fun s => s != ""))

/-- Transcription of claim C7's wording of the runtime library list, for
comparison against the code: the built artifact followed by the caller's
extra dependency archives, filtered of empty entries, comma-joined.  (The
code additionally inserts the configured `scalding-libjars` archives between
the two.) -/
def claimed_runtime_libjars (job_jar : String) (extra : List String) : String :=
  String.intercalate "," (([job_jar] ++ extra).filter (fun s => s != ""))

/-- Configuration used by the concrete evaluations: scala home `/sc`,
scalding home `/sd`, provided `/pv`, libjars `/lj`, tmp dir `/t`. -/
def cfgW : Config := ⟨"/sc", "/sd", "/pv", "/lj", "/t"⟩

/-- Concrete world for the execution-pipeline evaluations: user `u`, a single
source file `/s/W.scala` declaring `class W extends Job`, one scalding-core
jar, one configured libjar, no cached artifact, and subprocesses and cluster
that succeed. -/
def envRun : Env where
  user := "u"
  pathExists := fun p => p == "/s/W.scala"
  mtime := fun _ => none
  listdir := fun d =>
    if d == "/sd/lib" then ["scalding-core-1.jar"]
    else if d == "/lj" then ["e.jar"]
    else []
  fileLines := fun _ => ["class W extends Job"]
  callOk := fun _ => true
  clusterOk := fun _ => true

/-- Concrete job for the execution-pipeline evaluations. -/
def jobRun : Job where
  source := some "/s/W.scala"
  extra_jars := []
  mainM := none
  jobconfs := ["k=v"]
  atomic_output := true
  requires_hadoop := [("input1", ["A", "B"])]
  output := "o"
  job_args := ["x"]

/-- Concrete world with a cached artifact newer than its source (mtimes 9
versus 5) and no working subprocesses, for the cache-hit evaluation. -/
def envC1 : Env where
  user := "u"
  pathExists := fun p => p == "/t/scalding-job-u-W.jar" || p == "/s/W.scala"
  mtime := fun p =>
    if p == "/s/W.scala" then some 5
    else if p == "/t/scalding-job-u-W.jar" then some 9
    else none
  listdir := fun _ => []
  fileLines := fun _ => []
  callOk := fun _ => false
  clusterOk := fun _ => false

/-- Concrete world whose scalding lib directory holds no archive with the
`scalding-core-` prefix. -/
def envC5 : Env where
  user := "u"
  pathExists := fun _ => false
  mtime := fun _ => none
  listdir := fun d => if d == "/sd/lib" then ["scalding-other.jar"] else []
  fileLines := fun _ => []
  callOk := fun _ => false
  clusterOk := fun _ => false

/-- The job with an unset (`None`) source path. -/
def jobNoSource : Job := { jobRun with source := none }

/-- The job with an empty-string source path. -/
def jobEmptySource : Job := { jobRun with source := some "" }

/-- The job whose explicit entry point is the falsy empty string. -/
def jobMainEmpty : Job := { jobRun with mainM := some "" }

/-- The compiler invocation `build_job_jar` records in the concrete world. -/
def compileCallW : List String :=
  ["java", "-cp", "/sc/lib/scala-library.jar:/sc/lib/scala-compiler.jar",
   "scala.tools.nsc.Main", "-classpath", "/sd/lib/scalding-core-1.jar:/lj/e.jar",
   "-d", "/t/scalding-job-u-W", "/s/W.scala"]

/-- The archiver invocation `build_job_jar` records in the concrete world. -/
def jarCallW : List String :=
  ["jar", "cf", "/t/scalding-job-u-W.jar", "-C", "/t/scalding-job-u-W", "."]

example : splitext_root (os_path_basename "/s/WordCount.scala") = "WordCount" := by decide

example : get_job_class "A.scala" ["class B extends Job", "class C extends Job"] =
    Except.ok "C" := by decide

/-- Claim C1: for a job whose artifact already exists and whose artifact
modification time is strictly greater than the source's, `build_job_jar`
returns the canonical artifact path unchanged and invokes no subprocess. -/
theorem build_job_jar_cache_hit (env : Env) (cfg : Config) (job : Job) (src : String)
    (sm jm : Int)
    (hsrc : job.source = some src)
    (hex : env.pathExists (get_job_jar env cfg src) = true)
    (hsm : env.mtime src = some sm)
    (hjm : env.mtime (get_job_jar env cfg src) = some jm)
    (hgt : sm < jm) :
    build_job_jar env cfg job = (Except.ok (get_job_jar env cfg src), []) := by
  simp [build_job_jar, hsrc, hex, hsm, hjm, hgt]

/-- Witness for C1: with a cached artifact of mtime 9 over a source of mtime
5, the build is a pure cache hit. -/
theorem build_job_jar_cache_hit_witness :
    build_job_jar envC1 cfgW jobRun = (Except.ok (get_job_jar envC1 cfgW "/s/W.scala"), []) :=
  build_job_jar_cache_hit envC1 cfgW jobRun "/s/W.scala" 5 9 rfl (by decide) (by decide)
    (by decide) (by decide)

/-- Claim C3: on a source file with zero declarations matching the job-class
pattern, `get_job_class` falls off the scanning loop and returns the never
assigned local `job_class`, raising `UnboundLocalError` — an undefined-variable
crash, not the explicit discovery error the spec calls for. -/
theorem get_job_class_no_decl_unbound_local :
    get_job_class "/s/Empty.scala" ["// no declarations here", "val x = 1"] =
      Except.error PyErr.unboundLocal := by decide

/-- Counterexample to C4 as stated: the discovery pattern
`class\s+([^\s\(]+).*extends\s+.*Job` requires the literal keyword `class`,
so a source whose only declaration is `object WordCount extends Job` yields
no match at all (and hence the unbound-local failure), not the entry point
`WordCount`. -/
theorem object_decl_is_not_discovered :
    get_job_class "WordCount.scala" ["object WordCount extends Job"] =
      Except.error PyErr.unboundLocal := by decide

/-- Claim C4 amended: with a `class` declaration —
`class WordCount(args : Args) extends Job(args)` in `WordCount.scala` — the
discovered entry point is `WordCount`, immediately on the name matching the
file's base name. -/
theorem class_decl_is_discovered :
    get_job_class "WordCount.scala"
      ["import com.twitter.scalding.Job",
       "class WordCount(args : Args) extends Job(args)"] = Except.ok "WordCount" := by decide

/-- Counterexample to C5 as stated: when no archive in the scalding lib
directory carries the `scalding-core-` prefix, `get_scalding_core` does not
fail with a lookup error — it returns Python `None` (the function's return
type in this embedding has no error channel because the code's fallthrough is
`return None`). -/
theorem get_scalding_core_returns_none :
    get_scalding_core envC5 cfgW = none := by decide

/-- Claim C5 amended: when no archive with the `scalding-core-` prefix exists
in the scalding lib directory, `get_scalding_core` returns `None` — a
non-error sentinel the callers do not check — rather than raising. -/
theorem get_scalding_core_no_match (env : Env) (cfg : Config)
    (h : ∀ j ∈ env.listdir (os_path_join cfg.scalding_home "lib"),
      py_startswith j "scalding-core-" = false) :
    get_scalding_core env cfg = none := by
  have hf : (env.listdir (os_path_join cfg.scalding_home "lib")).find?
      (fun j => py_startswith j "scalding-core-") = none := by
    rw [List.find?_eq_none]
    intro j hj
    simp [h j hj]
  simp [get_scalding_core, hf]

/-- Witness for the amended C5 at a concrete directory listing. -/
theorem get_scalding_core_no_match_witness : get_scalding_core envC5 cfgW = none :=
  get_scalding_core_no_match envC5 cfgW (by decide)

/-- Counterexample to C6 as stated: with one configured `scalding-libjars`
archive present, the classpath handed to the compiler (element 5 of the first
recorded subprocess invocation, the value of its `-classpath` flag) contains
`/lj/e.jar`, which belongs to none of the claim's three categories; the
claim's own three-part join evaluates to a different string. -/
theorem compile_classpath_includes_libjars :
    ((build_job_jar envRun cfgW jobRun).2.headD []).getD 5 "" =
      "/sd/lib/scalding-core-1.jar:/lj/e.jar" ∧
    claimed_compile_classpath envRun cfgW jobRun.extra_jars =
      "/sd/lib/scalding-core-1.jar" ∧
    ¬ (((build_job_jar envRun cfgW jobRun).2.headD []).getD 5 "" =
        claimed_compile_classpath envRun cfgW jobRun.extra_jars) := by decide

/-- Claim C6 amended: on a cache miss, the classpath handed to the compiler
is the scalding archives, then the provided archives, then the configured
`scalding-libjars` archives, then the caller's extra dependency archives,
filtered of empty entries and colon-joined; the filtered list never contains
an empty-string entry. -/
theorem compile_classpath_assembly (env : Env) (cfg : Config) (job : Job) (src : String)
    (hsrc : job.source = some src)
    (hmiss : env.pathExists (get_job_jar env cfg src) = false) :
    ((build_job_jar env cfg job).2.headD []).getD 5 "" =
      String.intercalate ":" (compile_classpath env cfg job.extra_jars) ∧
    ∀ s ∈ compile_classpath env cfg job.extra_jars, ¬ s = "" := by
  constructor
  · simp only [build_job_jar, hsrc, hmiss, Bool.false_eq_true, if_false]
    by_cases h1 : env.callOk ["java", "-cp", String.intercalate ":" (get_scala_jars env cfg true),
        "scala.tools.nsc.Main", "-classpath",
        String.intercalate ":" (compile_classpath env cfg job.extra_jars), "-d",
        get_build_dir env cfg src, src]
    · simp [h1]
      split <;> simp [List.getD]
    · simp [h1, List.getD]
  · intro s hs
    have := List.mem_filter.mp hs
    simpa using this.2

/-- Witness for the amended C6 at the concrete world (where the filtered
classpath is scalding-core plus the configured libjar). -/
theorem compile_classpath_assembly_witness :
    ((build_job_jar envRun cfgW jobRun).2.headD []).getD 5 "" =
      String.intercalate ":" (compile_classpath envRun cfgW jobRun.extra_jars) ∧
    ∀ s ∈ compile_classpath envRun cfgW jobRun.extra_jars, ¬ s = "" :=
  compile_classpath_assembly envRun cfgW jobRun "/s/W.scala" rfl (by decide)

/-- Counterexample to C8 as stated: with an unset (`None`) source path,
`run_job` does not raise the "job source does not exist" exception — the
error-log line itself evaluates `os.path.abspath(None)` first, which raises
`AttributeError` — though still before any subprocess is spawned (the trace
is empty). -/
theorem run_job_none_source_attribute_error :
    run_job envRun cfgW jobNoSource = (Except.error PyErr.attributeError, ⟨[], [], []⟩) ∧
    ¬ (PyErr.attributeError = PyErr.jobSourceDoesNotExist) := by decide

/-- Claim C8 amended: whenever the source path is unset, empty, or names no
existing file, `run_job` raises before any subprocess is spawned (empty
trace); the raised error is the "job source does not exist" exception when
the source is a string, and the `AttributeError` from `os.path.abspath(None)`
in the error-log line when the source is unset. -/
theorem run_job_source_precondition (env : Env) (cfg : Config) (job : Job) :
    (job.source = none →
      run_job env cfg job = (Except.error PyErr.attributeError, ⟨[], [], []⟩)) ∧
    (∀ s, job.source = some s → (s = "" ∨ env.pathExists s = false) →
      run_job env cfg job = (Except.error PyErr.jobSourceDoesNotExist, ⟨[], [], []⟩)) := by
  constructor
  · intro h
    simp [run_job, h]
  · intro s hs hcase
    rcases hcase with h0 | hne
    · simp [run_job, hs, h0]
    · by_cases h0 : s = ""
      · simp [run_job, hs, h0]
      · simp [run_job, hs, h0, hne]

/-- Witness for the amended C8: an empty-string source raises the "job source
does not exist" exception with nothing spawned. -/
theorem run_job_source_precondition_witness :
    run_job envRun cfgW jobEmptySource =
      (Except.error PyErr.jobSourceDoesNotExist, ⟨[], [], []⟩) :=
  (run_job_source_precondition envRun cfgW jobEmptySource).2 "" rfl (Or.inl rfl)

/-- Claim C2: with atomic output enabled, when `run_job` returns successfully
every recorded (temporary, final) pair is relocated, in recorded order; when
`run_job` raises — whether in the precondition, the build, discovery, or the
cluster run itself — no relocation is performed. -/
theorem run_job_atomic_commit (env : Env) (cfg : Config) (job : Job)
    (_hA : job.atomic_output = true) :
    ((run_job env cfg job).1 = Except.ok () →
      (run_job env cfg job).2.moves = (fix_paths job).1) ∧
    ((run_job env cfg job).1 ≠ Except.ok () → (run_job env cfg job).2.moves = []) := by
  cases hs : job.source with
  | none => simp [run_job, hs]
  | some src =>
    by_cases h0 : src = ""
    · simp [run_job, hs, h0]
    · by_cases hex : env.pathExists src = true
      · rcases hb : build_job_jar env cfg job with ⟨res, calls⟩
        cases res with
        | error e => simp [run_job, hs, h0, hex, hb]
        | ok jar =>
          cases hr : resolve_job_class env job src with
          | error e => simp [run_job, hs, h0, hex, hb, hr]
          | ok cls =>
            simp only [run_job, hs, h0, hex, hb, hr, if_false, if_true]
            split <;> split <;> simp_all
      · rw [Bool.not_eq_true] at hex
        simp [run_job, hs, h0, hex]

/-- Witness for C2: in the concrete world the cluster run succeeds and the
single recorded pair is relocated. -/
theorem run_job_atomic_commit_witness :
    (run_job envRun cfgW jobRun).1 = Except.ok () ∧
    (run_job envRun cfgW jobRun).2.moves = [("o-luigi-tmp", "o")] :=
  ⟨by decide, by
    have h := (run_job_atomic_commit envRun cfgW jobRun rfl).1 (by decide)
    rw [h]
    decide⟩

/-- Counterexample to C7 as stated: with one configured `scalding-libjars`
archive present, the value of the `-libjars` flag (element 4 of the
submission argument list) contains `/lj/e.jar`, which is neither the built
artifact nor one of the caller's extra dependency archives; the claim's own
two-part join evaluates to a different string. -/
theorem runtime_libjars_include_configured_libjars :
    (run_job envRun cfgW jobRun).2.submits.map (fun p => p.1.getD 4 none) =
      [some "/t/scalding-job-u-W.jar,/lj/e.jar"] ∧
    (build_job_jar envRun cfgW jobRun).1 = Except.ok "/t/scalding-job-u-W.jar" ∧
    claimed_runtime_libjars "/t/scalding-job-u-W.jar" jobRun.extra_jars =
      "/t/scalding-job-u-W.jar" ∧
    ¬ ("/t/scalding-job-u-W.jar,/lj/e.jar" =
        claimed_runtime_libjars "/t/scalding-job-u-W.jar" jobRun.extra_jars) := by decide

/-- Claim C7 amended: the `-libjars` value of the submission is the built
artifact, then the configured `scalding-libjars` archives, then the caller's
extra dependency archives, filtered of empty entries and comma-joined. -/
theorem run_job_libjars_value (env : Env) (cfg : Config) (job : Job)
    (src job_jar : String) (calls : List (List String)) (cls : String)
    (hsrc : job.source = some src) (h0 : ¬ src = "") (hex : env.pathExists src = true)
    (hb : build_job_jar env cfg job = (Except.ok job_jar, calls))
    (hr : resolve_job_class env job src = Except.ok cls) :
    (run_job env cfg job).2.submits.map (fun p => p.1.getD 4 none) =
      [some (String.intercalate ","
        ((runtime_jars env cfg job_jar job.extra_jars).filter (fun s => s != "")))] := by
  simp only [run_job, hsrc, h0, hex, hb, hr, if_false, if_true]
  split <;> split <;> simp_all [List.getD]

/-- Witness for the amended C7 in the concrete world. -/
theorem run_job_libjars_value_witness :
    (run_job envRun cfgW jobRun).2.submits.map (fun p => p.1.getD 4 none) =
      [some (String.intercalate ","
        ((runtime_jars envRun cfgW "/t/scalding-job-u-W.jar" jobRun.extra_jars).filter
          (fun s => s != "")))] :=
  run_job_libjars_value envRun cfgW jobRun "/s/W.scala" "/t/scalding-job-u-W.jar"
    [compileCallW, jarCallW] "W" rfl (by decide) (by decide) (by decide) (by decide)

/-- Claim C9: the submission argument list is the cluster launcher invocation
(`hadoop jar`), the framework core archive, `-libjars` with the comma-joined
library list, one `-D` flag per jobconf entry, the resolved entry-point
class, the distributed-mode flag `--hdfs`, then the job arguments produced by
the task (input flags from `requires_hadoop`, an output flag, then the extra
`job_args`, as routed through `fix_paths`). -/
theorem run_job_submission_arglist (env : Env) (cfg : Config) (job : Job)
    (src job_jar : String) (calls : List (List String)) (cls core : String)
    (hsrc : job.source = some src) (h0 : ¬ src = "") (hex : env.pathExists src = true)
    (hb : build_job_jar env cfg job = (Except.ok job_jar, calls))
    (hr : resolve_job_class env job src = Except.ok cls)
    (hcore : get_scalding_core env cfg = some core) :
    (run_job env cfg job).2.submits.map Prod.fst =
      [[some "hadoop", some "jar", some core, some "-libjars",
        some (String.intercalate ","
          ((runtime_jars env cfg job_jar job.extra_jars).filter (fun s => s != "")))] ++
        job.jobconfs.map (fun c => some ("-D" ++ c)) ++
        [some cls, some "--hdfs"] ++ (fix_paths job).2.map some] ∧
    task_args job =
      (job.requires_hadoop.flatMap (fun kv => ["--" ++ kv.1, String.intercalate "," kv.2])) ++
        ["--output", job.output] ++ job.job_args := by
  constructor
  · simp only [run_job, hsrc, h0, hex, hb, hr, hcore, if_false, if_true]
    split <;> split <;> simp_all [List.append_assoc]
  · rfl

/-- Witness for C9 in the concrete world (class `W`, one jobconf, one input
pair, atomic output). -/
theorem run_job_submission_arglist_witness :
    (run_job envRun cfgW jobRun).2.submits.map Prod.fst =
      [[some "hadoop", some "jar", some "/sd/lib/scalding-core-1.jar", some "-libjars",
        some (String.intercalate ","
          ((runtime_jars envRun cfgW "/t/scalding-job-u-W.jar" jobRun.extra_jars).filter
            (fun s => s != "")))] ++
        jobRun.jobconfs.map (fun c => some ("-D" ++ c)) ++
        [some "W", some "--hdfs"] ++ (fix_paths jobRun).2.map some] ∧
    task_args jobRun =
      (jobRun.requires_hadoop.flatMap
        (fun kv => ["--" ++ kv.1, String.intercalate "," kv.2])) ++
        ["--output", jobRun.output] ++ jobRun.job_args :=
  run_job_submission_arglist envRun cfgW jobRun "/s/W.scala" "/t/scalding-job-u-W.jar"
    [compileCallW, jarCallW] "W" "/sd/lib/scalding-core-1.jar" rfl (by decide) (by decide)
    (by decide) (by decide) (by decide)

/-- Claim C10: a falsy explicit entry point — the empty string, not only
`None` — is ignored by `run_job`, which behaves exactly as if no explicit
entry point were set (using the discovered one); an explicit entry point is
used only when it is truthy. -/
theorem run_job_falsy_main_ignored (env : Env) (cfg : Config) (job : Job)
    (h : job.mainM = some "") :
    run_job env cfg job = run_job env cfg { job with mainM := none } ∧
    ∀ m, ¬ m = "" → ∀ src,
      resolve_job_class env { job with mainM := some m } src = Except.ok m := by
  obtain ⟨s, e, m, jc, a, r, o, ja⟩ := job
  simp only at h
  subst h
  constructor
  · rfl
  · intro m hm src
    simp [resolve_job_class, hm]

/-- Witness for C10 at the concrete job whose `main()` is the empty
string. -/
theorem run_job_falsy_main_ignored_witness :
    run_job envRun cfgW jobMainEmpty = run_job envRun cfgW { jobMainEmpty with mainM := none } ∧
    ∀ m, ¬ m = "" → ∀ src,
      resolve_job_class envRun { jobMainEmpty with mainM := some m } src = Except.ok m :=
  run_job_falsy_main_ignored envRun cfgW jobMainEmpty rfl
